import Mathlib

/-!
Shallow embedding of the Denon MC2000 Mixxx controller script
(src/Denon-MC2000-scripts.js): the LED manager (status normalization,
write-dedup cache keyed by strings "deck|code", and the `LED_MAP[name]`
property read with its `Object.prototype` chain), the jog-wheel decode and
motion interpreter (scratch / scrub / pitch-nudge branches), the shift
state machine, and a small event-loop simulation for the idle-release
timer.  Numbers are modelled with Int / Rat, JS values used as LED
statuses with an explicit sum type, and engine calls as an explicit
effect list.
-/

namespace MC2000

/-- A JavaScript value as it may be passed for an LED status:
number, boolean or string (the script only ever passes these). -/
inductive JsVal where
  | num  (n : Int)
  | bool (b : Bool)
  | str  (s : String)
deriving DecidableEq, Repr

/-- `MC2000.LED_STATE = { OFF: 0x4B, ON: 0x4A, BLINK: 0x4C }` -/
def LED_STATE_OFF   : Nat := 0x4B
def LED_STATE_ON    : Nat := 0x4A
def LED_STATE_BLINK : Nat := 0x4C

/-- The `MC2000.leds` table: symbolic LED name to device code. -/
def leds : List (String × Nat) :=
  [ ("shiftlock", 2), ("vinylmode", 6), ("keylock", 8), ("sync", 9),
    ("cue1", 17), ("cue2", 19), ("cue3", 21), ("cue4", 23),
    ("samp1_l", 25), ("samp2_l", 27), ("samp3_l", 29), ("samp4_l", 32),
    ("samples_l", 35), ("samp1_r", 65), ("samp2_r", 67), ("samp3_r", 69),
    ("samp4_r", 71), ("samples_r", 73), ("cue", 38), ("play", 39),
    ("loopin", 0x24), ("loopout", 0x40), ("autoloop", 0x2b),
    ("fx1_1", 0x5c), ("fx1_2", 0x5d), ("fx1_3", 0x5e),
    ("fx2_1", 0x60), ("fx2_2", 0x61), ("fx2_3", 0x62),
    ("monitorcue_l", 69), ("monitorcue_r", 81),
    ("sampler1", 0x19), ("sampler2", 0x1b), ("sampler3", 0x1d), ("sampler4", 0x20),
    ("sampler5", 0x41), ("sampler6", 0x43), ("sampler7", 0x45), ("sampler8", 0x47),
    ("samplemode", 0x1A) ]

/-- Case-insensitive two-character suffix test on a name, written on the
reversed character list: true when the last character is `lo` or `hi`
and the one before it is an underscore. -/
def hasSuffixCI (name : String) (lo hi : Char) : Bool :=
  match (String.toList name).reverse with
  | a :: b :: _ => (a == lo || a == hi) && b == '_'
  | _ => false

/-- Deck affinity heuristics used when building `LED_MAP`:
`/(_l|monitorcue_l)$/i` (equivalent to a case-insensitive "_l" suffix
test, since the alternation's second branch also ends in "_l"),
`/(_r|monitorcue_r)$/i`, then the exact `sampler[1-4]` / `sampler[5-8]`
patterns, else shared across both decks. -/
def decksFor (name : String) : List Nat :=
  if hasSuffixCI name 'l' 'L' then [1]
  else if hasSuffixCI name 'r' 'R' then [2]
  else if name = "sampler1" ∨ name = "sampler2" ∨ name = "sampler3" ∨ name = "sampler4" then [1]
  else if name = "sampler5" ∨ name = "sampler6" ∨ name = "sampler7" ∨ name = "sampler8" then [2]
  else [1, 2]

/-- An entry of `LED_MAP`: device code and applicable decks. -/
structure LedDef where
  code  : Nat
  decks : List Nat
deriving DecidableEq, Repr

/-- `LED_MAP`, built from `MC2000.leds` by the deck-affinity heuristics. -/
def LED_MAP : List (String × LedDef) :=
  List.map (fun p => (p.1, LedDef.mk p.2 (decksFor p.1))) leds

/-- The property names a plain JS object literal inherits from
`Object.prototype`: indexing `LED_MAP` with any of these yields a
truthy value (a built-in function, or the prototype object itself for
`__proto__`), not `undefined`. -/
def objectProtoProps : List String :=
  ["constructor", "hasOwnProperty", "isPrototypeOf", "propertyIsEnumerable",
   "toLocaleString", "toString", "valueOf", "__defineGetter__",
   "__defineSetter__", "__lookupGetter__", "__lookupSetter__", "__proto__"]

/-- The possible values of the JavaScript property read `LED_MAP[name]`:
an own entry of the table, a truthy value inherited from
`Object.prototype` (whose `.code` and `.decks` fields read as
`undefined`), or `undefined`. -/
inductive LedMapVal where
  | own (d : LedDef)
  | proto
  | undef
deriving DecidableEq, Repr

/-- `LED_MAP[name]` as JavaScript evaluates it: own properties first,
then the prototype chain, else `undefined`. -/
def ledMapRead (name : String) : LedMapVal :=
  match List.lookup name LED_MAP with
  | some d => LedMapVal.own d
  | none => if name ∈ objectProtoProps then LedMapVal.proto else LedMapVal.undef

namespace LedManager

/-- `normalize(status)`: 0x4B for `0 | false | 'off'`, 0x4C for
`2 | 'blink'`, else 0x4A (strict `===` comparisons). -/
def normalize (status : JsVal) : Nat :=
  if status = JsVal.num 0 ∨ status = JsVal.bool false ∨ status = JsVal.str "off" then
    LED_STATE_OFF
  else if status = JsVal.num 2 ∨ status = JsVal.str "blink" then
    LED_STATE_BLINK
  else
    LED_STATE_ON

/-- `key(deck, code) = deck + '|' + code`, with JavaScript's string
coercion: an `undefined` code prints as "undefined". -/
def key (deck : Nat) (code : Option Nat) : String :=
  toString deck ++ "|" ++ (match code with | some c => toString c | none => "undefined")

/-- The dedup cache: a JS object keyed by the `key` strings.  Modelled as
an association list where the most recent binding is looked up first. -/
def Cache := List (String × Nat)

instance : DecidableEq Cache := by
  unfold Cache
  infer_instance

/-- One `midi.sendShortMsg(a, b, c)` call, recorded as its argument
triple; the third component is the `code` argument, `none` when the JS
value passed is `undefined`. -/
def Msg := Nat × Nat × Option Nat

instance : DecidableEq Msg := by
  unfold Msg
  infer_instance

/-- `send(deck, code, statusByte)`: suppress the write when the cache
already holds `statusByte` for the key, otherwise update the cache and
emit `midi.sendShortMsg(0xB0 + (deck - 1), statusByte, code)`. -/
def send (deck : Nat) (code : Option Nat) (statusByte : Nat) (cache : Cache) :
    Cache × List Msg :=
  let k := key deck code
  if List.lookup k cache = some statusByte then (cache, [])
  else ((k, statusByte) :: cache, [(0xB0 + (deck - 1), statusByte, code)])

/-- Run `send` for each deck in order, accumulating emitted messages. -/
def sendAll (decks : List Nat) (code : Option Nat) (statusByte : Nat) (cache : Cache) :
    Cache × List Msg :=
  List.foldl
    (fun acc d =>
      let r := send d code statusByte acc.1
      (r.1, acc.2 ++ r.2))
    (cache, []) decks

/-- `LedManager.set(name, status, opts)`.  `var def = LED_MAP[name]` is a
JS property read (`ledMapRead`), so the guard `if (!def) return` stops
only names that read as `undefined`.  For an own entry the normalized
status is sent to the targeted decks (`opts.deck` if given, else the
table's deck affinity).  For a name inherited from `Object.prototype`
the truthy `def` passes the guard with `def.decks` and `def.code` both
`undefined`: without `opts.deck`, `decks.forEach` throws a TypeError on
`undefined` (modelled as `none`, the cache untouched); with `opts.deck`
it sends with an `undefined` code.  A normal return is `some` of the
new cache and the emitted messages. -/
def set (name : String) (status : JsVal) (optsDeck : Option Nat) (cache : Cache) :
    Option (Cache × List Msg) :=
  match ledMapRead name with
  | LedMapVal.undef => some (cache, [])
  | LedMapVal.own d =>
    let decks := match optsDeck with
      | some dk => [dk]
      | none => d.decks
    some (sendAll decks (some d.code) (normalize status) cache)
  | LedMapVal.proto =>
    match optsDeck with
    | some dk => some (sendAll [dk] none (normalize status) cache)
    | none => none

/-- `LedManager.setRaw(name, statusByte, opts)`: like `set` but with the
raw status byte, no normalization; the `LED_MAP[name]` read behaves the
same way. -/
def setRaw (name : String) (statusByte : Nat) (optsDeck : Option Nat) (cache : Cache) :
    Option (Cache × List Msg) :=
  match ledMapRead name with
  | LedMapVal.undef => some (cache, [])
  | LedMapVal.own d =>
    let decks := match optsDeck with
      | some dk => [dk]
      | none => d.decks
    some (sendAll decks (some d.code) statusByte cache)
  | LedMapVal.proto =>
    match optsDeck with
    | some dk => some (sendAll [dk] none statusByte cache)
    | none => none

end LedManager

/-! ## Jog wheel constants and decode -/

/-- `MC2000.jogResolution = 96` (ticks per revolution). -/
def jogResolution : Nat := 96
/-- `MC2000.jogRpm = 33 + 1/3`. -/
def jogRpm : ℚ := 33 + 1/3
/-- `MC2000.jogScratchAlpha = 1.0/16`. -/
def jogScratchAlpha : ℚ := 1/16
/-- `MC2000.jogScratchBeta = (1.0/16)/64`. -/
def jogScratchBeta : ℚ := (1/16)/64
/-- `MC2000.jogMaxScaling = 1.25`. -/
def jogMaxScaling : ℚ := 1.25
/-- `MC2000.jogScrubScaling = 0.0001`. -/
def jogScrubScaling : ℚ := 0.0001
/-- `MC2000.jogPitchScale = 1.0/4`. -/
def jogPitchScale : ℚ := 1/4
/-- `MC2000.jogCenter = 0x40`. -/
def jogCenter : Int := 0x40

/-- The raw-value decode shared by `jogTouch` and `jogWheel`:
`movement = value - jogCenter`, then wrap-around correction
(`> 64` subtract 128, `< -64` add 128). -/
def decodeJog (value : Int) : Int :=
  let movement := value - jogCenter
  let movement := if movement > 64 then movement - 128 else movement
  if movement < -64 then movement + 128 else movement

/-! ## Jog motion interpreter -/

/-- Per-unit jog state: `MC2000.jogScratchActive[deckNum]`,
`MC2000.jogReleaseTimer[deckNum]` (timer id or null),
`MC2000.jogLastTickTime[deckNum]`, `MC2000.jogTickCount[deckNum]`,
and `MC2000.deck[group].scratchMode`. -/
structure JogState where
  scratchActive : Bool
  releaseTimer  : Option Nat
  lastTickTime  : Int
  tickCount     : Nat
  scratchMode   : Bool
deriving DecidableEq, Repr

/-- The per-unit engine-side values the jog handlers read and write:
`play` (as a boolean), `slip_enabled`, `playposition`. -/
structure Engine where
  playing     : Bool
  slipEnabled : Bool
  playpos     : ℚ
deriving DecidableEq, Repr

/-- An engine / MIDI-framework call made by the jog handlers, recorded
with its arguments. -/
inductive Effect where
  | setSlip       (v : Nat)
  | scratchEnable (deck : Nat) (res : Nat) (rpm alpha beta : ℚ)
  | scratchTick   (deck : Nat) (d : ℚ)
  | scratchDisable (deck : Nat)
  | stopTimer     (id : Nat)
  | beginTimer    (delayMs : Int) (id : Nat)
  | setPlayPos    (p : ℚ)
  | setJog        (v : ℚ)
deriving DecidableEq, Repr

/-- `MC2000.jogTouch(channel, control, value, status, group)`.
`deckNum` is `MC2000.deckIndex(group)`, `now` is `Date.now()`, and
`newTimerId` is the fresh id `engine.beginTimer` would return for the
one-shot release timer armed by this call.  Returns the updated jog
state, updated engine values, and the list of engine calls in order. -/
def jogTouch (deckNum : Nat) (now : Int) (value : Int) (newTimerId : Nat)
    (s : JogState) (e : Engine) : JogState × Engine × List Effect :=
  let movement := decodeJog value
  if movement = 0 then (s, e, [])
  else
    let timeDiff := now - s.lastTickTime
    let count0 := if timeDiff > 150 then 0 else s.tickCount
    let count := count0 + 1
    let s1 : JogState := { s with tickCount := count, lastTickTime := now }
    let speedFactor : ℚ := min (1 + (count : ℚ) / 10) jogMaxScaling
    if e.playing then
      -- SCRATCH MODE (when playing)
      let slipFx : List Effect :=
        if s1.scratchActive then [] else
          if e.slipEnabled then [] else [Effect.setSlip 1]
      let e1 : Engine :=
        if s1.scratchActive then e else { e with slipEnabled := true }
      let enableFx : List Effect :=
        if s1.scratchActive then [] else
          [Effect.scratchEnable deckNum jogResolution jogRpm jogScratchAlpha jogScratchBeta]
      let s2 : JogState :=
        if s1.scratchActive then s1 else
          { s1 with scratchActive := true, scratchMode := true }
      let tickFx : List Effect := [Effect.scratchTick deckNum (movement * speedFactor)]
      let stopFx : List Effect :=
        match s2.releaseTimer with
        | some id => [Effect.stopTimer id]
        | none => []
      let s3 : JogState := { s2 with releaseTimer := some newTimerId }
      (s3, e1, slipFx ++ enableFx ++ tickFx ++ stopFx ++ [Effect.beginTimer 50 newTimerId])
    else
      -- SCRUB MODE (when paused)
      let effectiveScaling : ℚ := if s1.tickCount > 3 then speedFactor else 1
      let pos := e.playpos + movement * effectiveScaling * jogScrubScaling
      let pos := if pos < 0 then 0 else pos
      let pos := if pos > 1 then 1 else pos
      (s1, { e with playpos := pos }, [Effect.setPlayPos pos])

/-- The body of the one-shot release timer armed in `jogTouch`:
disable engine scratch, clear the scratch flags, set `slip_enabled` to 0,
null out the stored timer id. -/
def fireRelease (deckNum : Nat) (s : JogState) (e : Engine) :
    JogState × Engine × List Effect :=
  ({ s with scratchActive := false, scratchMode := false, releaseTimer := none },
   { e with slipEnabled := false },
   [Effect.scratchDisable deckNum, Effect.setSlip 0])

/-- `MC2000.jogWheel(channel, control, value, status, group)`: the outer
wheel.  While the touch sensor's scratch state is active it delegates to
`jogTouch`; otherwise it forwards `movement * jogPitchScale` to the
engine's transient `jog` control. -/
def jogWheel (deckNum : Nat) (now : Int) (value : Int) (newTimerId : Nat)
    (s : JogState) (e : Engine) : JogState × Engine × List Effect :=
  let movement := decodeJog value
  if movement = 0 then (s, e, [])
  else if s.scratchActive then
    jogTouch deckNum now value newTimerId s e
  else
    (s, e, [Effect.setJog (movement * jogPitchScale)])

/-! ## Shift state machine and the cue mode-switching control -/

/-- `MC2000.isButtonOn(value)`: `value === 0x7F || value === 0x40`. -/
def isButtonOn (value : Int) : Bool :=
  value = 0x7F || value = 0x40

/-- The two bindable behaviors of a mode-switching control such as the
cue button: the normal handler or the shifted one. -/
inductive Binding where
  | normal
  | shifted
deriving DecidableEq, Repr

/-- Global shift state (`MC2000.shiftHeld`, `MC2000.shiftLock`) together
with the current binding of a deck's cue control (`this.cue.input`,
rebound by `cue.shift()` / `cue.unshift()`). -/
structure ShiftCtx where
  shiftHeld  : Bool
  shiftLock  : Bool
  cueBinding : Binding
deriving DecidableEq, Repr

/-- `MC2000.isShiftActive()`: held or locked. -/
def shiftActive (c : ShiftCtx) : Bool :=
  c.shiftHeld || c.shiftLock

/-- `Deck.applyShiftState(shifted)` restricted to the cue control:
call `cue.shift()` when shifted (binding the shifted handler), else
`cue.unshift()` (restoring the original handler). -/
def applyShiftState (effective : Bool) (c : ShiftCtx) : ShiftCtx :=
  { c with cueBinding := if effective then Binding.shifted else Binding.normal }

/-- `MC2000.updateShiftState()`: compute effective shift and apply it to
every deck's shift-capable components (modelled for the cue control; the
shift-lock LED write goes through the LED manager and is not part of
this state). -/
def updateShiftState (c : ShiftCtx) : ShiftCtx :=
  applyShiftState (shiftActive c) c

/-- `MC2000.toggleShift(channel, control, value)`: set `shiftHeld` from
the raw value and run `updateShiftState`. -/
def toggleShift (value : Int) (c : ShiftCtx) : ShiftCtx :=
  updateShiftState { c with shiftHeld := isButtonOn value }

/-- `MC2000.cueButton(...)`: first re-applies the deck's shift state
(`applyShiftState(isShiftActive())`), then dispatches to the currently
bound cue handler.  Returns the new context and the binding the event
was dispatched to. -/
def cueButton (c : ShiftCtx) : ShiftCtx × Binding :=
  let c1 := applyShiftState (shiftActive c) c
  (c1, c1.cueBinding)

/-! ## Event-loop simulation for the idle-release timer

The script environment delivers ticks and timers on a single queue.
A pending one-shot timer is the pair (id, fire time); `engine.stopTimer`
cancels it, `engine.beginTimer(d, ...)` arms a fresh one that fires `d`
milliseconds later.  A cancelled timer never fires. -/

/-- Simulation state: the unit's jog state, the engine values, and the
at-most-one pending release timer as (id, absolute fire time). -/
structure SimState where
  jog     : JogState
  eng     : Engine
  pending : Option (Nat × Int)
deriving DecidableEq, Repr

/-- Deliver the pending timer if its fire time has been reached by time
`t`: run the release callback and clear the pending slot. -/
def deliverTimer (deckNum : Nat) (st : SimState) (t : Int) : SimState :=
  match st.pending with
  | some p =>
    if p.2 ≤ t then
      let r := fireRelease deckNum st.jog st.eng
      ⟨r.1, r.2.1, none⟩
    else st
  | none => st

/-- Fold the timer effects of a handler run at time `t` into the pending
slot: `stopTimer id` cancels a pending timer with that id, and
`beginTimer d id` arms (id, t + d). -/
def updatePending (t : Int) (p : Option (Nat × Int)) (fx : List Effect) :
    Option (Nat × Int) :=
  List.foldl
    (fun p f =>
      match f with
      | Effect.stopTimer id =>
        match p with
        | some q => if q.1 = id then none else p
        | none => none
      | Effect.beginTimer d id => some (id, t + d)
      | _ => p)
    p fx

/-- A jog tick event: (arrival time, raw wheel value, fresh timer id). -/
def TickEv := Int × Int × Nat

/-- Process one tick: first deliver any timer due by the tick's arrival
time, then run `jogTouch` and record its timer effects. -/
def simTick (deckNum : Nat) (st : SimState) (ev : TickEv) : SimState :=
  let st1 := deliverTimer deckNum st ev.1
  let r := jogTouch deckNum ev.1 ev.2.1 ev.2.2 st1.jog st1.eng
  ⟨r.1, r.2.1, updatePending ev.1 st1.pending r.2.2⟩

/-- Process a timeline of ticks in order. -/
def runSim (deckNum : Nat) (st : SimState) (evs : List TickEv) : SimState :=
  List.foldl (simTick deckNum) st evs

/-- The state observed at time `T` after the last tick: the pending
timer has fired exactly when its fire time is ≤ T. -/
def observe (deckNum : Nat) (st : SimState) (T : Int) : SimState :=
  deliverTimer deckNum st T

/-- The configuration while scratching, after a tick at `lastT` that
armed timer `lastId`: the scratch flag is up, the stored timer id is the
one last armed, and the pending timer is that id, due at `lastT + 50`. -/
def scratchInv (st : SimState) (lastT : Int) (lastId : Nat) : Prop :=
  st.jog.scratchActive = true ∧ st.jog.releaseTimer = some lastId ∧
  st.pending = some (lastId, lastT + 50) ∧ st.eng.playing = true

/-- Ticks keep arriving: each tick of the list comes no earlier than the
previous one, strictly less than 50 ms after it, and decodes to a
nonzero movement. -/
def timelineOk (lastT : Int) : List TickEv → Prop
  | [] => True
  | ev :: rest => lastT ≤ ev.1 ∧ ev.1 - lastT < 50 ∧ decodeJog ev.2.1 ≠ 0 ∧ timelineOk ev.1 rest

/-- The arrival time and timer id of the last tick of a timeline. -/
def lastOf (lastT : Int) (lastId : Nat) : List TickEv → Int × Nat
  | [] => (lastT, lastId)
  | ev :: rest => lastOf ev.1 ev.2.2 rest

/-! ## Claim theorems -/

/-- Helper: a tick within 50 ms of the previous one, while scratching,
keeps the scratch invariant: the stale timer is replaced by a fresh one
due 50 ms after this tick. -/
theorem simTick_inv (deckNum : Nat) (st : SimState) (lastT : Int) (lastId : Nat)
    (ev : TickEv) (hinv : scratchInv st lastT lastId)
    (hlt : ev.1 - lastT < 50) (hv : decodeJog ev.2.1 ≠ 0) :
    scratchInv (simTick deckNum st ev) ev.1 ev.2.2 := by
  obtain ⟨t, v, id⟩ := ev
  obtain ⟨hA, hR, hP, hPl⟩ := hinv
  have hd : deliverTimer deckNum st t = st := by
    simp only [deliverTimer, hP]
    rw [if_neg (by simp at hlt ⊢; omega)]
  simp [simTick, hd, jogTouch, hv, hA, hPl, hR, updatePending, scratchInv]

/-- Helper: the first tick from the idle configuration establishes the
scratch invariant. -/
theorem simTick_start (deckNum : Nat) (st : SimState) (ev : TickEv)
    (h1 : st.jog.scratchActive = false) (h2 : st.jog.releaseTimer = none)
    (h3 : st.pending = none) (h4 : st.eng.playing = true)
    (hv : decodeJog ev.2.1 ≠ 0) :
    scratchInv (simTick deckNum st ev) ev.1 ev.2.2 := by
  obtain ⟨t, v, id⟩ := ev
  cases hsl : st.eng.slipEnabled <;>
    simp [simTick, deliverTimer, h3, jogTouch, hv, h1, h2, h4, hsl, updatePending, scratchInv]

/-- Helper: a whole in-time timeline preserves the scratch invariant,
ending at the last tick's time and timer id. -/
theorem run_inv (deckNum : Nat) : ∀ (evs : List TickEv) (st : SimState)
    (lastT : Int) (lastId : Nat),
    scratchInv st lastT lastId → timelineOk lastT evs →
    scratchInv (runSim deckNum st evs)
      (lastOf lastT lastId evs).1 (lastOf lastT lastId evs).2 := by
  intro evs
  induction evs with
  | nil =>
    intro st lastT lastId h _
    simpa [runSim, lastOf] using h
  | cons ev rest ih =>
    intro st lastT lastId h htl
    obtain ⟨hle, hlt, hv, htl2⟩ := htl
    exact ih (simTick deckNum st ev) ev.1 ev.2.2 (simTick_inv deckNum st lastT lastId ev h hlt hv) htl2

/-- Helper: observing before the pending timer's due time changes
nothing. -/
theorem observe_waits (deckNum : Nat) (st : SimState) (lastT : Int) (lastId : Nat)
    (T : Int) (hinv : scratchInv st lastT lastId) (hT : T < lastT + 50) :
    observe deckNum st T = st := by
  obtain ⟨-, -, hP, -⟩ := hinv
  simp only [observe, deliverTimer, hP]
  rw [if_neg (by omega)]

/-- Helper: once 50 ms pass after the last tick, the pending timer fires
and the release callback turns scratch and slip off. -/
theorem observe_fires (deckNum : Nat) (st : SimState) (lastT : Int) (lastId : Nat)
    (T : Int) (hinv : scratchInv st lastT lastId) (hT : lastT + 50 ≤ T) :
    (observe deckNum st T).jog.scratchActive = false ∧
    (observe deckNum st T).eng.slipEnabled = false := by
  obtain ⟨-, -, hP, -⟩ := hinv
  simp only [observe, deliverTimer, hP]
  rw [if_pos (by omega)]
  simp [fireRelease]

/-- C1 counterexample: at raw value 0 the decoded movement is exactly
−64, which does not lie in the claimed open-below range (−64, 64]. -/
theorem C1_decode_counterexample :
    decodeJog 0 = -64 ∧ ¬ ((-64 : Int) < decodeJog 0 ∧ decodeJog 0 ≤ 64) := by
  decide

/-- C1 (amended): for every raw value v in [0,127] the decoded signed
movement equals ((v − center + 64) mod 128) − 64 with center = 0x40, and
lies in the range [−64, 64) (closed below, open above) — not (−64, 64]. -/
theorem C1_decode_amended : ∀ v : Int, 0 ≤ v → v ≤ 127 →
    decodeJog v = ((v - jogCenter + 64) % 128) - 64 ∧
    -64 ≤ decodeJog v ∧ decodeJog v < 64 := by
  intro v h0 h1
  simp only [decodeJog, jogCenter]
  split_ifs <;> constructor <;> omega

/-- C1 witness: the amended statement instantiated at raw value 5. -/
theorem C1_decode_witness :
    decodeJog 5 = ((5 - jogCenter + 64) % 128) - 64 ∧
    (-64 : Int) ≤ decodeJog 5 ∧ decodeJog 5 < 64 :=
  C1_decode_amended 5 (by decide) (by decide)

/-- C3 counterexample: press the cue button with shift off (dispatching
the normal binding), then let the shift modifier's held state change
(`toggleShift` firing `updateShiftState`) before the release: the cue
binding is already rebound to the shifted handler before the release is
dispatched, and the release dispatches to a different binding than the
press. -/
theorem C3_gesture_counterexample :
    (cueButton (ShiftCtx.mk false false Binding.normal)).2 = Binding.normal ∧
    (toggleShift 0x7F (cueButton (ShiftCtx.mk false false Binding.normal)).1).cueBinding
      = Binding.shifted ∧
    (cueButton (toggleShift 0x7F
        (cueButton (ShiftCtx.mk false false Binding.normal)).1)).2 = Binding.shifted ∧
    (cueButton (toggleShift 0x7F
        (cueButton (ShiftCtx.mk false false Binding.normal)).1)).2
      ≠ (cueButton (ShiftCtx.mk false false Binding.normal)).2 := by
  decide

/-- C3 (amended): the binding is not latched per gesture.  Every
`cueButton` event re-resolves the handler binding from the effective
shift state current at that dispatch, and every `toggleShift` event
immediately rebinds the control; so a shift change between press and
release changes the handler before the release is dispatched. -/
theorem C3_gesture_amended : ∀ (c : ShiftCtx) (v : Int),
    (cueButton c).2 = (if shiftActive c then Binding.shifted else Binding.normal) ∧
    (toggleShift v c).cueBinding
      = (if isButtonOn v || c.shiftLock then Binding.shifted else Binding.normal) := by
  intro c v
  constructor
  · simp [cueButton, applyShiftState]
  · simp [toggleShift, updateShiftState, applyShiftState, shiftActive]

/-- C8: an outer-wheel rotation with nonzero decoded movement while the
scratch-active flag is false forwards movement × jogPitchScale (1/4) to
the engine's `jog` control, leaves the unit's jog state and engine state
unchanged, and makes no other engine call. -/
theorem C8_pitch_nudge : ∀ (deckNum : Nat) (now value : Int) (newTimerId : Nat)
    (s : JogState) (e : Engine),
    s.scratchActive = false → decodeJog value ≠ 0 →
    jogWheel deckNum now value newTimerId s e =
      (s, e, [Effect.setJog ((decodeJog value : ℚ) * jogPitchScale)]) ∧
    jogPitchScale = 1/4 := by
  intro deckNum now value newTimerId s e h1 h2
  refine ⟨?_, rfl⟩
  simp [jogWheel, h1, h2]

/-- C8 witness: a concrete nudge event (value 65, movement +1) on a
non-scratching deck. -/
theorem C8_pitch_nudge_witness :
    jogWheel 1 0 65 0 (JogState.mk false none 0 0 false) (Engine.mk true false 0) =
      (JogState.mk false none 0 0 false, Engine.mk true false 0,
        [Effect.setJog ((decodeJog 65 : ℚ) * jogPitchScale)]) ∧
    jogPitchScale = 1/4 :=
  C8_pitch_nudge 1 0 65 0 (JogState.mk false none 0 0 false) (Engine.mk true false 0)
    rfl (by decide)

/-- C9 (code bug): "toString" is not in the LED table, yet neither
`set` nor `setRaw` is a throw-free no-op on it: `LED_MAP["toString"]`
reads the truthy `Object.prototype.toString` through the prototype
chain, the `if (!def) return` guard does not fire, and without a target
deck the call throws a TypeError (`decks.forEach` of `undefined`,
modelled `none`), while with a target deck it emits a spurious device
write with an `undefined` code and pollutes the cache under the key
"1|undefined".  A name that really reads as `undefined` ("bogus") is
the claimed no-op. -/
theorem C9_proto_name_bug :
    List.lookup "toString" LED_MAP = none ∧
    ledMapRead "toString" = LedMapVal.proto ∧
    LedManager.set "toString" (JsVal.str "on") none [] = none ∧
    LedManager.setRaw "toString" 0x50 none [] = none ∧
    LedManager.set "toString" (JsVal.str "on") (some 1) []
      = some ([(LedManager.key 1 none, LED_STATE_ON)],
              [(0xB0 + (1 - 1), LED_STATE_ON, none)]) ∧
    LedManager.key 1 none = "1|undefined" ∧
    ledMapRead "bogus" = LedMapVal.undef ∧
    LedManager.set "bogus" (JsVal.str "on") none [] = some ([], []) ∧
    LedManager.setRaw "bogus" 0x50 none [] = some ([], []) := by
  decide

/-- C10: status normalization is total with exactly the three device
bytes: 0x4B exactly for 0 / false / "off", 0x4C exactly for 2 / "blink",
and 0x4A for everything else (so e.g. the number 3 lights the LED ON). -/
theorem C10_normalize_total : ∀ s : JsVal,
    (LedManager.normalize s = LED_STATE_OFF ↔
      (s = JsVal.num 0 ∨ s = JsVal.bool false ∨ s = JsVal.str "off")) ∧
    (LedManager.normalize s = LED_STATE_BLINK ↔
      (s = JsVal.num 2 ∨ s = JsVal.str "blink")) ∧
    (¬ (s = JsVal.num 0 ∨ s = JsVal.bool false ∨ s = JsVal.str "off") →
      ¬ (s = JsVal.num 2 ∨ s = JsVal.str "blink") →
      LedManager.normalize s = LED_STATE_ON) ∧
    (LedManager.normalize s = LED_STATE_ON ∨ LedManager.normalize s = LED_STATE_OFF ∨
      LedManager.normalize s = LED_STATE_BLINK) := by
  intro s
  simp only [LedManager.normalize, LED_STATE_OFF, LED_STATE_ON, LED_STATE_BLINK]
  split_ifs with h1 h2 <;> refine ⟨?_, ?_, ?_, ?_⟩ <;> simp_all
  rcases h1 with h | h | h <;> simp_all

/-- C10 witness: the unrecognized status 3 normalizes to ON (0x4A). -/
theorem C10_normalize_witness : LedManager.normalize (JsVal.num 3) = LED_STATE_ON :=
  (C10_normalize_total (JsVal.num 3)).2.2.1 (by decide) (by decide)

/-- C4: a jog rotation with nonzero decoded movement while playing and
not yet scratch-active sets the scratch-active flag, calls the engine's
scratch enable with the fixed kinematic parameters (96 ticks/rev,
33 + 1/3 rpm, alpha 1/16, beta (1/16)/64), and enables `slip_enabled`
exactly when the slip flag was not already set. -/
theorem C4_scratch_entry : ∀ (deckNum : Nat) (now value : Int) (newTimerId : Nat)
    (s : JogState) (e : Engine),
    s.scratchActive = false → e.playing = true → decodeJog value ≠ 0 →
    (jogTouch deckNum now value newTimerId s e).1.scratchActive = true ∧
    Effect.scratchEnable deckNum jogResolution jogRpm jogScratchAlpha jogScratchBeta
      ∈ (jogTouch deckNum now value newTimerId s e).2.2 ∧
    jogResolution = 96 ∧ jogRpm = 33 + 1/3 ∧ jogScratchAlpha = 1/16 ∧
    jogScratchBeta = (1/16)/64 ∧
    (e.slipEnabled = false →
      Effect.setSlip 1 ∈ (jogTouch deckNum now value newTimerId s e).2.2 ∧
      (jogTouch deckNum now value newTimerId s e).2.1.slipEnabled = true) ∧
    (e.slipEnabled = true →
      Effect.setSlip 1 ∉ (jogTouch deckNum now value newTimerId s e).2.2) := by
  intro deckNum now value newTimerId s e h1 h2 h3
  refine ⟨?_, ?_, rfl, rfl, rfl, rfl, ?_, ?_⟩
  · simp [jogTouch, h1, h2, h3]
  · simp [jogTouch, h1, h2, h3]
  · intro hsl
    constructor
    · simp [jogTouch, h1, h2, h3, hsl]
    · simp [jogTouch, h1, h2, h3, hsl]
  · intro hsl
    cases hrt : s.releaseTimer <;> simp [jogTouch, h1, h2, h3, hsl, hrt]

/-- C4 witness: the first scratch tick (value 65) on an idle playing deck
with slip not yet enabled. -/
theorem C4_scratch_entry_witness :
    (jogTouch 1 0 65 7 (JogState.mk false none 0 0 false) (Engine.mk true false 0)).1.scratchActive
      = true ∧
    Effect.scratchEnable 1 jogResolution jogRpm jogScratchAlpha jogScratchBeta
      ∈ (jogTouch 1 0 65 7 (JogState.mk false none 0 0 false) (Engine.mk true false 0)).2.2 ∧
    Effect.setSlip 1
      ∈ (jogTouch 1 0 65 7 (JogState.mk false none 0 0 false) (Engine.mk true false 0)).2.2 :=
  let h := C4_scratch_entry 1 0 65 7 (JogState.mk false none 0 0 false)
    (Engine.mk true false 0) rfl rfl (by decide)
  ⟨h.1, h.2.1, (h.2.2.2.2.2.2.1 rfl).1⟩

/-- C6: scrub rotations (not playing) only ever write play positions in
[0,1]; the written value is the clamp of position + delta, which lands
exactly on the bound whenever the unclamped value would overshoot. -/
theorem C6_scrub_clamp : ∀ (deckNum : Nat) (now value : Int) (newTimerId : Nat)
    (s : JogState) (e : Engine), e.playing = false →
    (∀ p : ℚ, Effect.setPlayPos p ∈ (jogTouch deckNum now value newTimerId s e).2.2 →
      0 ≤ p ∧ p ≤ 1) ∧
    (decodeJog value ≠ 0 → ∃ d : ℚ,
      (jogTouch deckNum now value newTimerId s e).2.2
        = [Effect.setPlayPos ((jogTouch deckNum now value newTimerId s e).2.1.playpos)] ∧
      (jogTouch deckNum now value newTimerId s e).2.1.playpos
        = (if e.playpos + d < 0 then 0 else
            if 1 < e.playpos + d then 1 else e.playpos + d) ∧
      (e.playpos + d < 0 →
        (jogTouch deckNum now value newTimerId s e).2.1.playpos = 0) ∧
      (1 < e.playpos + d →
        (jogTouch deckNum now value newTimerId s e).2.1.playpos = 1)) := by
  intro deckNum now value newTimerId s e hp
  by_cases h0 : decodeJog value = 0
  · refine ⟨?_, fun h => absurd h0 h⟩
    intro p hmem
    simp [jogTouch, h0] at hmem
  · refine ⟨?_, fun _ => ?_⟩
    · intro p hmem
      simp only [jogTouch] at hmem
      rw [if_neg h0] at hmem
      simp only [hp, Bool.false_eq_true, if_false, List.mem_singleton,
        Effect.setPlayPos.injEq] at hmem
      subst hmem
      constructor <;> split_ifs <;> linarith
    · refine ⟨(decodeJog value : ℚ) *
        (if (if now - s.lastTickTime > 150 then 0 else s.tickCount) + 1 > 3 then
          min (1 + (((if now - s.lastTickTime > 150 then 0 else s.tickCount) + 1 : Nat) : ℚ) / 10)
            jogMaxScaling
        else 1) * jogScrubScaling, ?_, ?_, ?_, ?_⟩
      · simp only [jogTouch]
        rw [if_neg h0]
        simp only [hp, Bool.false_eq_true, if_false]
      · simp only [jogTouch]
        rw [if_neg h0]
        simp only [hp, Bool.false_eq_true, if_false]
        split_ifs <;> linarith
      · intro hlow
        simp only [jogTouch]
        rw [if_neg h0]
        simp only [hp, Bool.false_eq_true, if_false]
        split_ifs at hlow ⊢ <;> linarith
      · intro hhigh
        simp only [jogTouch]
        rw [if_neg h0]
        simp only [hp, Bool.false_eq_true, if_false]
        split_ifs at hhigh ⊢ <;> linarith

/-- C6 witness: scrubbing backward from position 0 stays clamped at 0. -/
theorem C6_scrub_clamp_witness :
    0 ≤ (jogTouch 1 0 63 7 (JogState.mk false none 0 0 false)
          (Engine.mk false false 0)).2.1.playpos ∧
    (jogTouch 1 0 63 7 (JogState.mk false none 0 0 false)
          (Engine.mk false false 0)).2.1.playpos ≤ 1 := by
  have h := C6_scrub_clamp 1 0 63 7 (JogState.mk false none 0 0 false)
    (Engine.mk false false 0) rfl
  obtain ⟨d, -, hcl, -, -⟩ := h.2 (by decide)
  rw [hcl]
  split_ifs <;> constructor <;> linarith

/-- C7: the velocity factor applied to scratch ticks is
min(1 + count/10, jogMaxScaling) over a rolling tick counter that resets
when more than 150 ms pass between ticks; the factor is ≥ 1, monotone in
the counter, and capped at jogMaxScaling = 1.25. -/
theorem C7_velocity_factor : ∀ (deckNum : Nat) (now value : Int) (newTimerId : Nat)
    (s : JogState) (e : Engine),
    decodeJog value ≠ 0 → e.playing = true →
    (jogTouch deckNum now value newTimerId s e).1.tickCount
      = (if now - s.lastTickTime > 150 then 0 else s.tickCount) + 1 ∧
    (now - s.lastTickTime > 150 →
      (jogTouch deckNum now value newTimerId s e).1.tickCount = 1) ∧
    Effect.scratchTick deckNum ((decodeJog value : ℚ) *
        min (1 + (((if now - s.lastTickTime > 150 then 0 else s.tickCount) + 1 : Nat) : ℚ) / 10)
          jogMaxScaling)
      ∈ (jogTouch deckNum now value newTimerId s e).2.2 ∧
    (∀ n : Nat, 1 ≤ min (1 + ((n + 1 : Nat) : ℚ) / 10) jogMaxScaling ∧
      min (1 + ((n + 1 : Nat) : ℚ) / 10) jogMaxScaling ≤ jogMaxScaling) ∧
    (∀ n m : Nat, n ≤ m →
      min (1 + (n : ℚ) / 10) jogMaxScaling ≤ min (1 + (m : ℚ) / 10) jogMaxScaling) ∧
    jogMaxScaling = 1.25 := by
  intro deckNum now value newTimerId s e h0 h2
  refine ⟨?_, ?_, ?_, ?_, ?_, rfl⟩
  · simp only [jogTouch]
    rw [if_neg h0]
    simp only [h2, if_true]
    split_ifs <;> rfl
  · intro h
    simp only [jogTouch]
    rw [if_neg h0]
    simp only [h2, if_true, h, if_pos]
    split_ifs <;> rfl
  · simp [jogTouch, h0, h2]
  · intro n
    constructor
    · refine le_min ?_ ?_
      · have : (0 : ℚ) ≤ ((n + 1 : Nat) : ℚ) / 10 := by positivity
        linarith
      · norm_num [jogMaxScaling]
    · exact min_le_right _ _
  · intro n m hnm
    have h : (n : ℚ) ≤ (m : ℚ) := by exact_mod_cast hnm
    refine min_le_min ?_ le_rfl
    linarith

/-- Helper: `sendAll` over a single target deck is one `send`. -/
theorem sendAll_single (deck : Nat) (code : Option Nat) (b : Nat)
    (cache : LedManager.Cache) :
    LedManager.sendAll [deck] code b cache = LedManager.send deck code b cache := by
  simp [LedManager.sendAll, LedManager.send]

/-- Helper: a name that is an own entry of the table reads as that
entry. -/
theorem ledMapRead_own (name : String) (d : LedDef)
    (hname : List.lookup name LED_MAP = some d) :
    ledMapRead name = LedMapVal.own d := by
  simp [ledMapRead, hname]

/-- Helper: `set` on a name found in the table with an explicit target
deck returns normally with one `send` of the normalized status. -/
theorem set_found (name : String) (d : LedDef)
    (hname : List.lookup name LED_MAP = some d) (status : JsVal) (deck : Nat)
    (cache : LedManager.Cache) :
    LedManager.set name status (some deck) cache
      = some (LedManager.send deck (some d.code) (LedManager.normalize status) cache) := by
  simp [LedManager.set, ledMapRead_own name d hname, sendAll_single]

/-- Helper: a cache miss sends the message and stores the byte. -/
theorem send_miss (deck : Nat) (code : Option Nat) (b : Nat) (cache : LedManager.Cache)
    (h : List.lookup (LedManager.key deck code) cache ≠ some b) :
    LedManager.send deck code b cache
      = ((LedManager.key deck code, b) :: cache, [(0xB0 + (deck - 1), b, code)]) := by
  simp only [LedManager.send]
  rw [if_neg h]

/-- Helper: a cache hit suppresses the write. -/
theorem send_hit (deck : Nat) (code : Option Nat) (b : Nat) (cache : LedManager.Cache)
    (h : List.lookup (LedManager.key deck code) cache = some b) :
    LedManager.send deck code b cache = (cache, []) := by
  simp only [LedManager.send]
  rw [if_pos h]

/-- Helper: looking up a key on a cons with that key. -/
theorem lookup_cons_self (k : String) (b : Nat) (cache : LedManager.Cache) :
    List.lookup k ((k, b) :: cache) = some b := by
  simp [List.lookup]

/-- C2: for a name in the LED table and a fixed target deck, starting
from a cache that does not already hold the normalized byte for the
(deck, code) key, two consecutive `set` calls normalizing to the same
byte emit exactly one `midi.sendShortMsg`, a third call normalizing to a
different byte emits a second, and the cache ends up keyed by the
(deck, code) pair holding the last byte. -/
theorem C2_set_dedup : ∀ (name : String) (d : LedDef),
    List.lookup name LED_MAP = some d →
    ∀ (deck : Nat) (s1 s2 s3 : JsVal) (cache : LedManager.Cache),
    LedManager.normalize s1 = LedManager.normalize s2 →
    LedManager.normalize s3 ≠ LedManager.normalize s1 →
    List.lookup (LedManager.key deck (some d.code)) cache
      ≠ some (LedManager.normalize s1) →
    LedManager.set name s1 (some deck) cache
      = some ((LedManager.key deck (some d.code), LedManager.normalize s1) :: cache,
              [(0xB0 + (deck - 1), LedManager.normalize s1, some d.code)]) ∧
    LedManager.set name s2 (some deck)
        ((LedManager.key deck (some d.code), LedManager.normalize s1) :: cache)
      = some ((LedManager.key deck (some d.code), LedManager.normalize s1) :: cache,
              []) ∧
    LedManager.set name s3 (some deck)
        ((LedManager.key deck (some d.code), LedManager.normalize s1) :: cache)
      = some ((LedManager.key deck (some d.code), LedManager.normalize s3)
                :: (LedManager.key deck (some d.code), LedManager.normalize s1) :: cache,
              [(0xB0 + (deck - 1), LedManager.normalize s3, some d.code)]) ∧
    List.lookup (LedManager.key deck (some d.code))
        ((LedManager.key deck (some d.code), LedManager.normalize s3)
          :: (LedManager.key deck (some d.code), LedManager.normalize s1) :: cache)
      = some (LedManager.normalize s3) := by
  intro name d hname deck s1 s2 s3 cache h12 h31 hcache
  refine ⟨?_, ?_, ?_, lookup_cons_self _ _ _⟩
  · rw [set_found name d hname s1 deck cache, send_miss _ _ _ _ hcache]
  · rw [set_found name d hname s2 deck _, ← h12,
      send_hit _ _ _ _ (lookup_cons_self _ _ _)]
  · rw [set_found name d hname s3 deck _,
      send_miss _ _ _ _ (by rw [lookup_cons_self]; simpa using fun h => h31 h.symm)]

/-- C2 witness: the spec scenario on the "play" LED, deck 1, from an
empty cache: on, on, then off. -/
theorem C2_set_dedup_witness :
    LedManager.set "play" (JsVal.str "on") (some 1) []
      = some ([(LedManager.key 1 (some 39), LedManager.normalize (JsVal.str "on"))],
              [(0xB0 + (1 - 1), LedManager.normalize (JsVal.str "on"), some 39)]) ∧
    LedManager.set "play" (JsVal.str "on") (some 1)
        [(LedManager.key 1 (some 39), LedManager.normalize (JsVal.str "on"))]
      = some ([(LedManager.key 1 (some 39), LedManager.normalize (JsVal.str "on"))],
              []) ∧
    LedManager.set "play" (JsVal.str "off") (some 1)
        [(LedManager.key 1 (some 39), LedManager.normalize (JsVal.str "on"))]
      = some ([(LedManager.key 1 (some 39), LedManager.normalize (JsVal.str "off")),
               (LedManager.key 1 (some 39), LedManager.normalize (JsVal.str "on"))],
              [(0xB0 + (1 - 1), LedManager.normalize (JsVal.str "off"), some 39)]) ∧
    List.lookup (LedManager.key 1 (some 39))
        [(LedManager.key 1 (some 39), LedManager.normalize (JsVal.str "off")),
         (LedManager.key 1 (some 39), LedManager.normalize (JsVal.str "on"))]
      = some (LedManager.normalize (JsVal.str "off")) :=
  C2_set_dedup "play" (LedDef.mk 39 [1, 2]) (by decide) 1
    (JsVal.str "on") (JsVal.str "on") (JsVal.str "off") []
    rfl (by decide) (by decide)

/-- C7 witness: a tick after a long idle gap resets the counter to 1 and
applies factor min(1 + 1/10, 1.25) = 1.1. -/
theorem C7_velocity_factor_witness :
    (jogTouch 1 1000 65 7 (JogState.mk true (some 3) 0 9 true) (Engine.mk true true 0)).1.tickCount
      = 1 ∧
    Effect.scratchTick 1 ((decodeJog 65 : ℚ) *
        min (1 + ((1 : Nat) : ℚ) / 10) jogMaxScaling)
      ∈ (jogTouch 1 1000 65 7 (JogState.mk true (some 3) 0 9 true) (Engine.mk true true 0)).2.2 := by
  have h := C7_velocity_factor 1 1000 65 7 (JogState.mk true (some 3) 0 9 true)
    (Engine.mk true true 0) (by decide) rfl
  refine ⟨h.2.1 (by decide), ?_⟩
  have h3 := h.2.2.1
  simpa using h3

/-- C5: while ticks keep arriving within 50 ms of each other, each tick
cancels the previously armed release timer and arms a fresh 50 ms
one-shot (so a cancelled stale timer never fires), the unit stays in
SCRATCHING, and observing the state before the last tick's timer is due
changes nothing; once 50 ms pass with no further tick, the timer fires
and the release callback disables engine scratch, clears the
scratch-active flag and sets slip to 0. -/
theorem C5_release_timer : ∀ (deckNum : Nat) (st0 : SimState) (ev : TickEv)
    (rest : List TickEv),
    st0.jog.scratchActive = false → st0.jog.releaseTimer = none →
    st0.pending = none → st0.eng.playing = true →
    decodeJog ev.2.1 ≠ 0 → timelineOk ev.1 rest →
    scratchInv (runSim deckNum st0 (ev :: rest))
      (lastOf ev.1 ev.2.2 rest).1 (lastOf ev.1 ev.2.2 rest).2 ∧
    (runSim deckNum st0 (ev :: rest)).jog.scratchActive = true ∧
    (∀ T : Int, T < (lastOf ev.1 ev.2.2 rest).1 + 50 →
      observe deckNum (runSim deckNum st0 (ev :: rest)) T
        = runSim deckNum st0 (ev :: rest)) ∧
    (∀ T : Int, (lastOf ev.1 ev.2.2 rest).1 + 50 ≤ T →
      (observe deckNum (runSim deckNum st0 (ev :: rest)) T).jog.scratchActive = false ∧
      (observe deckNum (runSim deckNum st0 (ev :: rest)) T).eng.slipEnabled = false) ∧
    (∀ (st : SimState) (lastT : Int) (lastId : Nat) (t v : Int) (id : Nat),
      scratchInv st lastT lastId → decodeJog v ≠ 0 →
      Effect.stopTimer lastId ∈ (jogTouch deckNum t v id st.jog st.eng).2.2 ∧
      Effect.beginTimer 50 id ∈ (jogTouch deckNum t v id st.jog st.eng).2.2) ∧
    (∀ (j : JogState) (e : Engine), fireRelease deckNum j e
      = ({ j with scratchActive := false, scratchMode := false, releaseTimer := none },
         { e with slipEnabled := false },
         [Effect.scratchDisable deckNum, Effect.setSlip 0])) := by
  intro deckNum st0 ev rest h1 h2 h3 h4 hv htl
  have h0 : scratchInv (simTick deckNum st0 ev) ev.1 ev.2.2 :=
    simTick_start deckNum st0 ev h1 h2 h3 h4 hv
  have hrun := run_inv deckNum rest (simTick deckNum st0 ev) ev.1 ev.2.2 h0 htl
  refine ⟨hrun, hrun.1,
    fun T hT => observe_waits deckNum _ _ _ T hrun hT,
    fun T hT => observe_fires deckNum _ _ _ T hrun hT, ?_, fun j e => rfl⟩
  intro st lastT lastId t v id hinv hv2
  obtain ⟨hA, hR, hP, hPl⟩ := hinv
  constructor <;> simp [jogTouch, hv2, hA, hPl, hR]

/-- C5 witness: the spec timeline — ticks at t = 0 and t = 30 from the
idle playing configuration: at t = 79 the unit is still scratching, at
t = 81 scratch is off and slip is disabled. -/
theorem C5_release_timer_witness :
    (observe 1 (runSim 1
        (SimState.mk (JogState.mk false none 0 0 false) (Engine.mk true false 0) none)
        [(0, 65, 1), (30, 65, 2)]) 79).jog.scratchActive = true ∧
    (observe 1 (runSim 1
        (SimState.mk (JogState.mk false none 0 0 false) (Engine.mk true false 0) none)
        [(0, 65, 1), (30, 65, 2)]) 81).jog.scratchActive = false ∧
    (observe 1 (runSim 1
        (SimState.mk (JogState.mk false none 0 0 false) (Engine.mk true false 0) none)
        [(0, 65, 1), (30, 65, 2)]) 81).eng.slipEnabled = false := by
  have h := C5_release_timer 1
    (SimState.mk (JogState.mk false none 0 0 false) (Engine.mk true false 0) none)
    (0, 65, 1) [(30, 65, 2)] rfl rfl rfl rfl (by decide)
    ⟨by norm_num, by norm_num, by decide, trivial⟩
  refine ⟨?_, (h.2.2.2.1 81 (by norm_num [lastOf])).1, (h.2.2.2.1 81 (by norm_num [lastOf])).2⟩
  rw [h.2.2.1 79 (by norm_num [lastOf])]
  exact h.2.1

end MC2000
